import Mathlib

/-!
Verification of the location-data aggregation pipeline and crop-suitability
scoring engine of the agritech-chat-assistant repository.

The Python source is shallowly embedded: pydantic model classes become Lean
structures, the scoring and ranking methods of `CropMatcher`
(src/data_layer/crop_database.py) become pure functions on ℚ (the float
arithmetic of the source only involves short decimal constants, which ℚ
represents exactly), and the stateful `DataPipeline`
(src/data_layer/pipeline.py) becomes explicit state passing over an
association-list cache, with the four network fetchers supplied as an
explicit environment of outcomes.
-/

namespace AgriSpec

/-- Python's `str.lower()` (the crop names involved are ASCII), written as a
structural map over the character list. -/
def python_lower (s : String) : String := ⟨s.data.map Char.toLower⟩

/-- Python's `str.title()` restricted to the single-word crop names it is
applied to: the first character is uppercased. -/
def python_title (s : String) : String :=
  match s.data with
  | [] => ⟨[]⟩
  | c :: cs => ⟨c.toUpper :: cs⟩

/-- Soil texture classifications (`SoilTexture` in src/models/soil.py). -/
inductive SoilTexture where
  | clay | clay_loam | loam | loamy_sand | sand | sandy_clay | sandy_clay_loam
  | sandy_loam | silt | silty_clay | silty_clay_loam | silty_loam
  deriving DecidableEq

/-- Preferred soil types (`SoilType` in src/models/crop.py). -/
inductive SoilType where
  | clay | clay_loam | loam | sandy_loam | sandy_clay_loam | sandy_clay
  | silty_clay | silty_clay_loam | silty_loam | sand | silt | any
  deriving DecidableEq

/-- Water requirement levels (`WaterRequirement` in src/models/crop.py). -/
inductive WaterRequirement where
  | low | medium | high
  deriving DecidableEq

/-- The underlying string value of a `SoilTexture` (it is a Python str-enum). -/
def SoilTexture.value : SoilTexture → String
  | .clay => "clay"
  | .clay_loam => "clay_loam"
  | .loam => "loam"
  | .loamy_sand => "loamy_sand"
  | .sand => "sand"
  | .sandy_clay => "sandy_clay"
  | .sandy_clay_loam => "sandy_clay_loam"
  | .sandy_loam => "sandy_loam"
  | .silt => "silt"
  | .silty_clay => "silty_clay"
  | .silty_clay_loam => "silty_clay_loam"
  | .silty_loam => "silty_loam"

/-- The underlying string value of a `SoilType` (it is a Python str-enum). -/
def SoilType.value : SoilType → String
  | .clay => "clay"
  | .clay_loam => "clay_loam"
  | .loam => "loam"
  | .sandy_loam => "sandy_loam"
  | .sandy_clay_loam => "sandy_clay_loam"
  | .sandy_clay => "sandy_clay"
  | .silty_clay => "silty_clay"
  | .silty_clay_loam => "silty_clay_loam"
  | .silty_loam => "silty_loam"
  | .sand => "sand"
  | .silt => "silt"
  | .any => "any"

/-- Soil property measurements (`SoilProperties` in src/models/soil.py). -/
structure SoilProperties where
  ph_h2o : Option ℚ
  organic_carbon : Option ℚ := none
  bulk_density : Option ℚ := none
  clay_content : Option ℚ := none
  sand_content : Option ℚ := none
  silt_content : Option ℚ := none
  deriving DecidableEq

/-- Soil profile (`SoilProfile` in src/models/soil.py), in its validated form:
the `determine_texture` validator has already filled `texture` when it could. -/
structure SoilProfile where
  properties : SoilProperties
  texture : Option SoilTexture
  deriving DecidableEq

/-- One day of forecast (`WeatherForecast` in src/models/weather.py). -/
structure WeatherForecast where
  date : String
  temperature_min_c : ℚ
  temperature_max_c : ℚ
  precipitation_mm : Option ℚ := none
  deriving DecidableEq

/-- Current conditions (`WeatherCondition` in src/models/weather.py). -/
structure WeatherCondition where
  temperature_c : ℚ
  humidity_percent : ℚ
  deriving DecidableEq

/-- Weather data (`WeatherData` in src/models/weather.py). -/
structure WeatherData where
  current : WeatherCondition
  forecast : List WeatherForecast
  deriving DecidableEq

/-- `WeatherData.get_average_temperature`: mean of the per-day midpoints over
the first `days` forecast entries; `None` when there is no forecast. -/
def WeatherData.get_average_temperature (w : WeatherData) (days : ℕ) : Option ℚ :=
  if w.forecast = [] ∨ days = 0 then none
  else
    let forecast_days := w.forecast.take days
    if forecast_days = [] then none
    else some ((forecast_days.map
      (fun d => (d.temperature_min_c + d.temperature_max_c) / 2)).sum / forecast_days.length)

/-- One rainfall measurement (`RainfallRecord` in src/models/water.py). -/
structure RainfallRecord where
  date : String
  precipitation_mm : ℚ
  deriving DecidableEq

/-- Rainfall data (`RainfallData` in src/models/water.py). -/
structure RainfallData where
  records : List RainfallRecord
  deriving DecidableEq

/-- `RainfallData.get_total_precipitation`: sum over the last `days` records
(`records[-days:]` in the source; all records when fewer are held). -/
def RainfallData.get_total_precipitation (rd : RainfallData) (days : ℕ) : ℚ :=
  if rd.records = [] ∨ days = 0 then 0
  else
    let recent := if rd.records.length ≥ days
      then rd.records.drop (rd.records.length - days)
      else rd.records
    (recent.map (fun r => r.precipitation_mm)).sum

/-- Price trend directions (`PriceTrend` in src/models/market.py). -/
inductive PriceTrend where
  | rising | falling | stable | volatile
  deriving DecidableEq

/-- Per-crop price analysis (`PriceAnalysis` in src/models/market.py). -/
structure PriceAnalysis where
  crop_name : String
  current_price : ℚ
  average_price_3_months : ℚ
  average_price_12_months : ℚ
  price_trend : PriceTrend
  volatility_index : ℚ
  price_change_percent : ℚ
  deriving DecidableEq

/-- One raw price record (`CropPrice` in src/models/market.py). -/
structure CropPrice where
  crop_name : String
  price_per_kg : ℚ
  date : String
  deriving DecidableEq

/-- Market price data (`MarketPrices` in src/models/market.py). -/
structure MarketPrices where
  prices : List CropPrice
  analyses : List PriceAnalysis
  deriving DecidableEq

/-- `MarketPrices.get_crop_analysis`: first analysis whose crop name matches
case-insensitively. -/
def MarketPrices.get_crop_analysis (mp : MarketPrices) (crop_name : String) :
    Option PriceAnalysis :=
  mp.analyses.find? (fun a => python_lower a.crop_name == python_lower crop_name)

/-- `MarketPrices.calculate_profitability_score`: trend- and
volatility-adjusted profit, normalized against the fixed 100000 ceiling and
clamped to [0, 1]; `None` when the crop has no analysis. -/
def MarketPrices.calculate_profitability_score (mp : MarketPrices)
    (crop_name : String) (yield_per_acre : ℚ) : Option ℚ :=
  match mp.get_crop_analysis crop_name with
  | none => none
  | some analysis =>
    let base_profit := analysis.current_price * yield_per_acre
    let trend_multiplier : ℚ :=
      match analysis.price_trend with
      | .rising => 1.2
      | .falling => 0.8
      | .volatile => 0.9
      | .stable => 1.0
    let volatility_adjustment := 1.0 - analysis.volatility_index * 0.3
    let normalized_profit :=
      min (base_profit * trend_multiplier * volatility_adjustment / 100000) 1.0
    some (max 0.0 normalized_profit)

/-- Crop growing requirements (`CropRequirements` in src/models/crop.py),
in validated form. -/
structure CropRequirements where
  crop_name : String
  ph_min : ℚ
  ph_max : ℚ
  ph_optimal : ℚ
  temp_min_c : ℚ
  temp_max_c : ℚ
  temp_optimal_c : ℚ
  rainfall_min_mm : ℚ
  rainfall_max_mm : Option ℚ
  growing_season_months : List ℤ
  soil_types : List SoilType
  water_requirement : WaterRequirement
  growth_duration_days : ℤ
  typical_yield_per_acre : ℚ
  base_market_price_per_kg : ℚ
  deriving DecidableEq

/-- Geographic coordinates (`Coordinates` in src/models/location.py),
in validated form. -/
structure Coordinates where
  latitude : ℚ
  longitude : ℚ
  deriving DecidableEq

/-- Location with metadata (`Location` in src/models/location.py); only the
fields the pipeline populates are kept. -/
structure Location where
  coordinates : Coordinates
  city : Option String
  state : Option String
  deriving DecidableEq

/-- Assembled snapshot (`LocationData` in src/models/location.py). Timestamps
are modelled as rational time measured in days. -/
structure LocationData where
  location : Location
  soil_profile : Option SoilProfile
  weather_data : Option WeatherData
  rainfall_data : Option RainfallData
  market_prices : Option MarketPrices
  timestamp : Option ℚ
  deriving DecidableEq

/-- Rounding to the nearest integer with ties to even, the rounding mode of
Python's built-in `round`. -/
def round_half_even (q : ℚ) : ℤ :=
  let f := ⌊q⌋
  let r := q - f
  if r < 1/2 then f
  else if 1/2 < r then f + 1
  else if 2 ∣ f then f else f + 1

/-- Python `round(q, 3)`. -/
def round3 (q : ℚ) : ℚ := (round_half_even (q * 1000) : ℚ) / 1000

/-- Python `round(q, 6)`. -/
def round6 (q : ℚ) : ℚ := (round_half_even (q * 1000000) : ℚ) / 1000000

/-- The scoring weights of `CropMatcher` (src/data_layer/crop_database.py). -/
structure ScoringWeights where
  soil_ph_match : ℚ
  temperature_suitability : ℚ
  rainfall_adequacy : ℚ
  soil_type_match : ℚ
  water_availability : ℚ
  deriving DecidableEq

/-- The in-code default scoring weights, used when the configuration supplies
none (the repository ships no `crop_recommendation.scoring_weights` entry). -/
def default_scoring_weights : ScoringWeights :=
  { soil_ph_match := 0.30
    temperature_suitability := 0.25
    rainfall_adequacy := 0.25
    soil_type_match := 0.10
    water_availability := 0.10 }

/-- The five sub-scores returned by `calculate_suitability_score`. -/
structure ScoreBreakdown where
  soil_ph_score : ℚ
  temperature_score : ℚ
  rainfall_score : ℚ
  soil_type_score : ℚ
  water_availability_score : ℚ
  deriving DecidableEq

/-- `CropMatcher._calculate_ph_score`: neutral 0.5 without soil data or pH;
1.0 inside [ph_min, ph_max] within 0.5 of optimal, 0.8 inside otherwise,
0.6 within 0.5 beyond an edge, 0.2 else. -/
def calculate_ph_score (cr : CropRequirements) (soil_profile : Option SoilProfile) : ℚ :=
  match soil_profile with
  | none => 0.5
  | some sp =>
    match sp.properties.ph_h2o with
    | none => 0.5
    | some ph =>
      if cr.ph_min ≤ ph ∧ ph ≤ cr.ph_max then
        if |ph - cr.ph_optimal| ≤ 0.5 then 1.0 else 0.8
      else if cr.ph_min - 0.5 ≤ ph ∧ ph ≤ cr.ph_max + 0.5 then 0.6
      else 0.2

/-- `CropMatcher._calculate_temperature_score`: same graduation against the
7-day forecast average, falling back to the current reading. -/
def calculate_temperature_score (cr : CropRequirements) (weather_data : Option WeatherData) : ℚ :=
  match weather_data with
  | none => 0.5
  | some wd =>
    let avg_temp := (wd.get_average_temperature 7).getD wd.current.temperature_c
    if cr.temp_min_c ≤ avg_temp ∧ avg_temp ≤ cr.temp_max_c then
      if |avg_temp - cr.temp_optimal_c| ≤ 3 then 1.0 else 0.8
    else if cr.temp_min_c - 5 ≤ avg_temp ∧ avg_temp ≤ cr.temp_max_c + 5 then 0.6
    else 0.2

/-- The upper-bound test of `_calculate_rainfall_score`: the source writes
`recent <= (rainfall_max_mm or inf)`, so a missing maximum — and, by Python
truthiness, a zero maximum — never binds. -/
def rainfall_upper_ok : Option ℚ → ℚ → Prop
  | none, _ => True
  | some mx, recent => mx = 0 ∨ recent ≤ mx

instance (o : Option ℚ) (r : ℚ) : Decidable (rainfall_upper_ok o r) :=
  match o with
  | none => isTrue trivial
  | some mx => inferInstanceAs (Decidable (mx = 0 ∨ r ≤ mx))

/-- `CropMatcher._calculate_rainfall_score`: 30-day trailing total against
[rainfall_min, rainfall_max or unbounded], graduated down to a 0.1 floor. -/
def calculate_rainfall_score (cr : CropRequirements) (rainfall_data : Option RainfallData) : ℚ :=
  match rainfall_data with
  | none => 0.5
  | some rd =>
    if rd.records = [] then 0.5
    else
      let recent_rainfall := rd.get_total_precipitation 30
      if cr.rainfall_min_mm ≤ recent_rainfall ∧
          rainfall_upper_ok cr.rainfall_max_mm recent_rainfall then 1.0
      else if cr.rainfall_min_mm * 0.8 ≤ recent_rainfall then 0.7
      else if cr.rainfall_min_mm * 0.5 ≤ recent_rainfall then 0.4
      else 0.1

/-- `CropMatcher._get_similar_soil_types`. -/
def get_similar_soil_types : SoilTexture → List SoilType
  | .loam => [.clay_loam, .sandy_loam, .silty_loam]
  | .clay_loam => [.loam, .clay, .silty_clay_loam]
  | .sandy_loam => [.loam, .sand, .sandy_clay_loam]
  | .clay => [.clay_loam, .silty_clay]
  | .sand => [.sandy_loam, .sandy_clay_loam]
  | .silt => [.silty_loam, .silty_clay_loam]
  | _ => []

/-- `CropMatcher._calculate_soil_type_score`: the texture (a `SoilTexture`
str-enum) is compared against the crop's `SoilType` list by string value,
exactly as Python's mixed-in str equality does. -/
def calculate_soil_type_score (cr : CropRequirements) (soil_profile : Option SoilProfile) : ℚ :=
  match soil_profile with
  | none => 0.5
  | some sp =>
    match sp.texture with
    | none => 0.5
    | some soil_texture =>
      if cr.soil_types.any (fun t => t.value == soil_texture.value) then 1.0
      else if (get_similar_soil_types soil_texture).any
        (fun similar_type => decide (similar_type ∈ cr.soil_types)) then 0.7
      else 0.3

/-- `CropMatcher._calculate_water_availability_score`: a stress index from the
30-day total, a tolerance from the water-requirement tier, and a graduated
score as stress exceeds tolerance. -/
def calculate_water_availability_score (cr : CropRequirements)
    (rainfall_data : Option RainfallData) : ℚ :=
  match rainfall_data with
  | none => 0.5
  | some rd =>
    if rd.records = [] then 0.5
    else
      let recent_precipitation := rd.get_total_precipitation 30
      let water_stress : ℚ :=
        if recent_precipitation ≥ 150 then 0.0
        else if recent_precipitation ≥ 100 then 0.3
        else if recent_precipitation ≥ 50 then 0.6
        else 0.9
      let tolerance : ℚ :=
        match cr.water_requirement with
        | .low => 0.8
        | .medium => 0.5
        | .high => 0.2
      if water_stress ≤ tolerance then 1.0
      else if water_stress ≤ tolerance + 0.2 then 0.7
      else if water_stress ≤ tolerance + 0.4 then 0.4
      else 0.1

/-- `CropMatcher.calculate_suitability_score`: the five sub-scores and the
weighted overall score, rounded to 3 decimals. -/
def calculate_suitability_score (w : ScoringWeights) (cr : CropRequirements)
    (ld : LocationData) : ℚ × ScoreBreakdown :=
  let scores : ScoreBreakdown :=
    { soil_ph_score := calculate_ph_score cr ld.soil_profile
      temperature_score := calculate_temperature_score cr ld.weather_data
      rainfall_score := calculate_rainfall_score cr ld.rainfall_data
      soil_type_score := calculate_soil_type_score cr ld.soil_profile
      water_availability_score := calculate_water_availability_score cr ld.rainfall_data }
  let overall_score :=
    scores.soil_ph_score * w.soil_ph_match +
    scores.temperature_score * w.temperature_suitability +
    scores.rainfall_score * w.rainfall_adequacy +
    scores.soil_type_score * w.soil_type_match +
    scores.water_availability_score * w.water_availability
  (round3 overall_score, scores)

/-- `CropMatcher._calculate_profitability_score`: neutral 0.5 without market
data. The source returns `market_prices.calculate_profitability_score(...) or
0.5`, so both a missing analysis (`None`) and — by Python truthiness — a
computed score of exactly 0.0 become 0.5. -/
def matcher_profitability_score (crop_name : String) (ld : LocationData)
    (cr : CropRequirements) : ℚ :=
  match ld.market_prices with
  | none => 0.5
  | some mp =>
    match mp.calculate_profitability_score crop_name cr.typical_yield_per_acre with
    | none => 0.5
    | some v => if v = 0 then 0.5 else v

/-- `CropMatcher._calculate_expected_profit`. -/
def calculate_expected_profit (cr : CropRequirements) (profitability_score : ℚ) : ℚ :=
  cr.typical_yield_per_acre * cr.base_market_price_per_kg * profitability_score

/-- `CropMatcher._calculate_risk_level`. -/
def calculate_risk_level (suitability_score profitability_score : ℚ) : String :=
  let combined_score := suitability_score * 0.7 + profitability_score * 0.3
  if combined_score ≥ 0.8 then "low"
  else if combined_score ≥ 0.6 then "medium"
  else "high"

/-- `CropMatcher._get_risk_factors`: one named factor per checked sub-score
below 0.4. The source checks the pH, temperature, rainfall and
water-availability sub-scores; it never checks the soil-type sub-score. -/
def get_risk_factors (sb : ScoreBreakdown) : List String :=
  (if sb.soil_ph_score < 0.4 then ["Poor soil pH match"] else []) ++
  (if sb.temperature_score < 0.4 then ["Temperature outside optimal range"] else []) ++
  (if sb.rainfall_score < 0.4 then ["Insufficient rainfall"] else []) ++
  (if sb.water_availability_score < 0.4 then ["High water stress"] else [])

/-- The heterogeneous `key_factors` dict of `CropMatcher._get_key_factors`,
modelled with one optional field per possible key. -/
structure KeyFactors where
  soil_ph_match : Option Bool
  rainfall_forecast_mm : Option ℚ
  market_price_trend : Option String
  deriving DecidableEq

/-- `CropMatcher._get_key_factors`. -/
def get_key_factors (sb : ScoreBreakdown) (ld : LocationData) : KeyFactors :=
  { soil_ph_match :=
      if sb.soil_ph_score > 0.8 then some true
      else if sb.soil_ph_score < 0.4 then some false
      else none
    rainfall_forecast_mm := ld.rainfall_data.map (fun rd => rd.get_total_precipitation 30)
    market_price_trend := ld.market_prices.map (fun _ => "Stable") }

/-- `CropMatcher._generate_summary`. -/
def generate_summary (crop_name : String) (suitability_score : ℚ) : String :=
  if suitability_score ≥ 0.8 then
    python_title crop_name ++
      " is highly suitable for this location with excellent environmental conditions."
  else if suitability_score ≥ 0.6 then
    python_title crop_name ++ " is suitable for this location with good growing conditions."
  else if suitability_score ≥ 0.4 then
    python_title crop_name ++ " is moderately suitable for this location with some limitations."
  else
    python_title crop_name ++
      " has limited suitability for this location due to environmental constraints."

/-- Crop recommendation record (`CropRecommendation` in src/models/crop.py). -/
structure CropRecommendation where
  crop_name : String
  suitability_score : ℚ
  expected_profit_per_acre : ℚ
  profitability_score : ℚ
  soil_ph_score : ℚ
  temperature_score : ℚ
  rainfall_score : ℚ
  soil_type_score : ℚ
  water_availability_score : ℚ
  key_factors : KeyFactors
  summary : String
  risk_level : String
  risk_factors : List String
  deriving DecidableEq

/-- The crop catalog (`CropDatabase` in src/data_layer/crop_database.py): an
insertion-ordered name-to-requirements dictionary. -/
structure CropDatabase where
  crop_requirements : List (String × CropRequirements)
  deriving DecidableEq

/-- `CropDatabase.get_all_crops`: the keys in insertion order. -/
def CropDatabase.get_all_crops (db : CropDatabase) : List String :=
  db.crop_requirements.map (fun p => p.1)

/-- `CropDatabase.get_crop_requirements`: dictionary lookup by the lowercased
query name. -/
def CropDatabase.get_crop_requirements (db : CropDatabase) (crop_name : String) :
    Option CropRequirements :=
  (db.crop_requirements.find? (fun p => p.1 == python_lower crop_name)).map (fun p => p.2)

/-- The `CropRecommendation(...)` construction inside
`CropMatcher.get_crop_recommendations`. -/
def build_recommendation (w : ScoringWeights) (ld : LocationData)
    (crop_name : String) (cr : CropRequirements) : CropRecommendation :=
  let pair := calculate_suitability_score w cr ld
  let suitability_score := pair.1
  let sb := pair.2
  let profitability_score := matcher_profitability_score crop_name ld cr
  { crop_name := crop_name
    suitability_score := suitability_score
    expected_profit_per_acre := calculate_expected_profit cr profitability_score
    profitability_score := profitability_score
    soil_ph_score := sb.soil_ph_score
    temperature_score := sb.temperature_score
    rainfall_score := sb.rainfall_score
    soil_type_score := sb.soil_type_score
    water_availability_score := sb.water_availability_score
    key_factors := get_key_factors sb ld
    summary := generate_summary crop_name suitability_score
    risk_level := calculate_risk_level suitability_score profitability_score
    risk_factors := get_risk_factors sb }

/-- The candidate list `recommendations` built by the loop of
`CropMatcher.get_crop_recommendations`, in catalog order: every catalog crop
whose requirements resolve and whose suitability reaches `min_score`. -/
def candidate_recommendations (w : ScoringWeights) (db : CropDatabase)
    (ld : LocationData) (min_score : ℚ) : List CropRecommendation :=
  db.get_all_crops.filterMap (fun crop_name =>
    match db.get_crop_requirements crop_name with
    | none => none
    | some cr =>
      let r := build_recommendation w ld crop_name cr
      if r.suitability_score < min_score then none else some r)

/-- The sort key of `CropMatcher.get_crop_recommendations`:
`suitability*0.7 + profitability*0.3`. -/
def combined_key (r : CropRecommendation) : ℚ :=
  r.suitability_score * 0.7 + r.profitability_score * 0.3

/-- The descending-by-combined-key order the ranker sorts with. -/
def rec_order (a b : CropRecommendation) : Prop :=
  combined_key b ≤ combined_key a

instance : DecidableRel rec_order :=
  fun a b => inferInstanceAs (Decidable (combined_key b ≤ combined_key a))

instance : IsTotal CropRecommendation rec_order :=
  ⟨fun a b => (le_total (combined_key b) (combined_key a)).imp id id⟩

instance : IsTrans CropRecommendation rec_order :=
  ⟨fun _ _ _ hab hbc => le_trans hbc hab⟩

/-- `CropMatcher.get_crop_recommendations`: Python's `list.sort(key=...,
reverse=True)` is a stable descending sort, whose result is the unique
stably-sorted list; it is modelled by insertion sort under `rec_order`,
which is stable for this total preorder, followed by truncation to
`max_crops`. -/
def get_crop_recommendations (w : ScoringWeights) (db : CropDatabase)
    (ld : LocationData) (max_crops : ℕ) (min_score : ℚ) : List CropRecommendation :=
  (List.insertionSort rec_order (candidate_recommendations w db ld min_score)).take max_crops

/-- The pydantic field validator `Coordinates.validate_coordinates`
(src/models/location.py), together with the `ge`/`le` field bounds that
pydantic checks first: a nonzero value smaller than 0.0001 in absolute value
is rejected, anything else in range is rounded to 6 decimal places. -/
def validate_coordinate_field (lo hi : ℚ) (v : ℚ) : Except String ℚ :=
  if v < lo ∨ hi < v then .error "value out of field bounds"
  else if 0 < |v| ∧ |v| < 0.0001 then
    .error "Coordinates must have at least 4 decimal places for accuracy"
  else .ok (round6 v)

/-- `Coordinates(latitude=..., longitude=...)` construction: latitude then
longitude are validated; a `ValueError` propagates as an exception. -/
def mk_coordinates (lat lon : ℚ) : Except String Coordinates :=
  match validate_coordinate_field (-90) 90 lat with
  | .error e => .error e
  | .ok la =>
    match validate_coordinate_field (-180) 180 lon with
    | .error e => .error e
    | .ok lo => .ok { latitude := la, longitude := lo }

/-- The outcome of one source fetcher branch: a successfully fetched and
parsed payload, a raised error, or a timeout. -/
inductive FetchOutcome (α : Type) where
  | ok (value : α)
  | failed
  | timedOut
  deriving DecidableEq

/-- `DataPipeline._fetch_with_timeout` composed with the
`gather(..., return_exceptions=True)` collection and `_process_*` parsing in
`fetch_location_data`: an error or timeout becomes an absent field, never an
exception. -/
def fetch_with_timeout {α : Type} : FetchOutcome α → Option α
  | .ok v => some v
  | .failed => none
  | .timedOut => none

/-- Whether a branch failed or timed out. -/
def FetchOutcome.failedOrTimedOut {α : Type} : FetchOutcome α → Bool
  | .ok _ => false
  | .failed => true
  | .timedOut => true

/-- The four independent fetcher branches of one aggregation request. -/
structure FetchEnv where
  soil : FetchOutcome SoilProfile
  weather : FetchOutcome WeatherData
  rainfall : FetchOutcome RainfallData
  market : FetchOutcome MarketPrices

/-- How many of the four branches fail or time out. -/
def failure_count (env : FetchEnv) : ℕ :=
  (if env.soil.failedOrTimedOut then 1 else 0) +
  (if env.weather.failedOrTimedOut then 1 else 0) +
  (if env.rainfall.failedOrTimedOut then 1 else 0) +
  (if env.market.failedOrTimedOut then 1 else 0)

/-- How many of the four optional snapshot fields are populated. -/
def populated_count (ld : LocationData) : ℕ :=
  (if ld.soil_profile.isSome then 1 else 0) +
  (if ld.weather_data.isSome then 1 else 0) +
  (if ld.rainfall_data.isSome then 1 else 0) +
  (if ld.market_prices.isSome then 1 else 0)

/-- The location cache `DataPipeline.location_cache`: a Python dict keyed by
`f"{lat}_{lon}"` (distinct coordinate pairs give distinct keys), modelled as
an insertion-ordered association list. -/
abbrev Cache : Type := List ((ℚ × ℚ) × LocationData)

/-- `DataPipeline._get_cached_data`: a non-expired hit is returned; an expired
entry is deleted from the cache; an entry without timestamp is ignored.
Returns the lookup result together with the possibly-updated cache. -/
def get_cached_data (cache : Cache) (ttl_days : ℚ) (now lat lon : ℚ) :
    Option LocationData × Cache :=
  match List.find? (fun e => decide (e.1 = (lat, lon))) cache with
  | none => (none, cache)
  | some entry =>
    match entry.2.timestamp with
    | none => (none, cache)
    | some cached_time =>
      if now < cached_time + ttl_days then (some entry.2, cache)
      else (none, List.eraseP (fun e => decide (e.1 = (lat, lon))) cache)

/-- `DataPipeline._cache_data`: dict assignment (overwrite in place or append)
followed by eviction of the oldest entries beyond capacity 100. -/
def cache_data (cache : Cache) (lat lon : ℚ) (ld : LocationData) : Cache :=
  let updated : Cache :=
    if List.any cache (fun e => decide (e.1 = (lat, lon))) then
      List.map (fun e => if e.1 = (lat, lon) then ((lat, lon), ld) else e) cache
    else cache ++ [((lat, lon), ld)]
  if 100 < updated.length then List.drop (updated.length - 100) updated
  else updated

/-- The static city proximity table of `DataPipeline._get_city_name`. -/
def city_table : List ((ℚ × ℚ) × String) :=
  [((18.5204, 73.8567), "Pune"), ((19.0760, 72.8777), "Mumbai"),
   ((12.9716, 77.5946), "Bangalore"), ((17.3850, 78.4867), "Hyderabad"),
   ((28.7041, 77.1025), "Delhi"), ((22.5726, 88.3639), "Kolkata"),
   ((26.2389, 73.0243), "Jodhpur"), ((25.2048, 55.2708), "Dubai")]

/-- `DataPipeline._get_city_name`: first city within 0.5 degrees. -/
def get_city_name (lat lon : ℚ) : Option String :=
  (city_table.find? (fun e => decide (|lat - e.1.1| < 0.5 ∧ |lon - e.1.2| < 0.5))).map
    (fun e => e.2)

/-- The static state proximity table of `DataPipeline._get_state_name`. -/
def state_table : List ((ℚ × ℚ) × String) :=
  [((18.5204, 73.8567), "Maharashtra"), ((19.0760, 72.8777), "Maharashtra"),
   ((12.9716, 77.5946), "Karnataka"), ((17.3850, 78.4867), "Telangana"),
   ((28.7041, 77.1025), "Delhi"), ((22.5726, 88.3639), "West Bengal"),
   ((26.2389, 73.0243), "Rajasthan")]

/-- `DataPipeline._get_state_name`: first state within 1 degree. -/
def get_state_name (lat lon : ℚ) : Option String :=
  (state_table.find? (fun e => decide (|lat - e.1.1| < 1 ∧ |lon - e.1.2| < 1))).map
    (fun e => e.2)

/-- The snapshot assembled on a cache miss: each optional field from its
branch's outcome, stamped with the current time, with the best-effort
city/state labels. -/
def fresh_snapshot (env : FetchEnv) (now lat lon : ℚ) (coords : Coordinates) :
    LocationData :=
  { location :=
      { coordinates := coords
        city := get_city_name lat lon
        state := get_state_name lat lon }
    soil_profile := fetch_with_timeout env.soil
    weather_data := fetch_with_timeout env.weather
    rainfall_data := fetch_with_timeout env.rainfall
    market_prices := fetch_with_timeout env.market
    timestamp := some now }

/-- The outcome of one `fetch_location_data` call: the snapshot, the cache
after the call, and whether the four fetchers were actually invoked. -/
structure FetchResult where
  data : LocationData
  cache : Cache
  fetched : Bool

/-- `DataPipeline.fetch_location_data`: range-validate, consult the cache,
and on a miss construct the `Location` (where `Coordinates` construction may
raise), gather the four branch outcomes into the snapshot, stamp it with the
current time and store it. Raises only for invalid input, never for a branch
failure. -/
def fetch_location_data (env : FetchEnv) (cache : Cache) (ttl_days now lat lon : ℚ) :
    Except String FetchResult :=
  if ¬ (-90 ≤ lat ∧ lat ≤ 90 ∧ -180 ≤ lon ∧ lon ≤ 180) then
    .error "Invalid coordinates"
  else
    match get_cached_data cache ttl_days now lat lon with
    | (some cached_data, cache2) =>
      .ok { data := cached_data, cache := cache2, fetched := false }
    | (none, cache2) =>
      match mk_coordinates lat lon with
      | .error e => .error e
      | .ok coords =>
        let location_data := fresh_snapshot env now lat lon coords
        .ok { data := location_data
              cache := cache_data cache2 lat lon location_data
              fetched := true }

/-- A raw crop catalog entry as read from the YAML file, before enum
conversion and pydantic validation (`CropDatabase._load_crop_data`). -/
structure RawCropEntry where
  crop_name : String
  ph_min : ℚ
  ph_max : ℚ
  ph_optimal : ℚ
  temp_min_c : ℚ
  temp_max_c : ℚ
  temp_optimal_c : ℚ
  rainfall_min_mm : ℚ
  rainfall_max_mm : Option ℚ
  growing_season_months : List ℤ
  soil_types : List String
  water_requirement : String
  growth_duration_days : ℤ
  typical_yield_per_acre : ℚ
  base_market_price_per_kg : ℚ
  deriving DecidableEq

/-- `WaterRequirement(...)` string-enum conversion; an unknown value raises. -/
def water_requirement_of_value : String → Option WaterRequirement
  | "low" => some .low
  | "medium" => some .medium
  | "high" => some .high
  | _ => none

/-- `SoilType(...)` string-enum conversion; an unknown value raises. -/
def soil_type_of_value : String → Option SoilType
  | "clay" => some .clay
  | "clay_loam" => some .clay_loam
  | "loam" => some .loam
  | "sandy_loam" => some .sandy_loam
  | "sandy_clay_loam" => some .sandy_clay_loam
  | "sandy_clay" => some .sandy_clay
  | "silty_clay" => some .silty_clay
  | "silty_clay_loam" => some .silty_clay_loam
  | "silty_loam" => some .silty_loam
  | "sand" => some .sand
  | "silt" => some .silt
  | "any" => some .any
  | _ => none

/-- The body of the pydantic validator `CropRequirements.validate_ph_range`
(and, with other bounds, `validate_temp_range`): it raises exactly when both
`min` and `optimal` are available in `values` AND truthy (nonzero) AND the
ordering `min ≤ optimal ≤ max` fails. Pydantic's `values` holds only the
fields declared BEFORE the validated field. -/
def ordering_validator_rejects (mn opt : Option ℚ) (mx : ℚ) : Bool :=
  match mn, opt with
  | some a, some b => decide (a ≠ 0 ∧ b ≠ 0 ∧ ¬ (a ≤ b ∧ b ≤ mx))
  | _, _ => false

/-- The pydantic validator `CropRequirements.validate_rainfall_range`: raises
when both values are truthy and `rainfall_min > rainfall_max`. -/
def rainfall_validator_rejects (mn : ℚ) (mx : Option ℚ) : Bool :=
  match mx with
  | some v => decide (mn ≠ 0 ∧ v ≠ 0 ∧ v < mn)
  | none => false

/-- The pydantic validator `CropRequirements.validate_growing_months`:
rejects an empty list or an out-of-range month, then deduplicates and sorts
(`sorted(list(set(v)))`). -/
def validate_growing_months (l : List ℤ) : Option (List ℤ) :=
  if l = [] then none
  else if l.all (fun m => decide (1 ≤ m ∧ m ≤ 12)) then
    some (List.insertionSort (fun a b => a ≤ b) l.dedup)
  else none

/-- `CropRequirements(**crop_data)` validation, replayed in pydantic's field
declaration order (src/models/crop.py). Each field's `ge`/`le` bounds run
first, then the field's validator with `values` holding only the previously
declared fields. In particular, when `validate_ph_range` runs on `ph_max`,
`ph_optimal` (declared after `ph_max`) is absent from `values`, so its
ordering check is silently skipped — likewise for `validate_temp_range` and
`temp_optimal_c`. `None` models a raised `ValidationError`. -/
def validate_crop_requirements (e : RawCropEntry) (wr : WaterRequirement)
    (sts : List SoilType) : Option CropRequirements :=
  if ¬ (3 ≤ e.ph_min ∧ e.ph_min ≤ 10) then none
  else if ¬ (3 ≤ e.ph_max ∧ e.ph_max ≤ 10) then none
  else if ordering_validator_rejects (some e.ph_min) none e.ph_max then none
  else if ¬ (3 ≤ e.ph_optimal ∧ e.ph_optimal ≤ 10) then none
  else if ¬ (-10 ≤ e.temp_min_c ∧ e.temp_min_c ≤ 50) then none
  else if ¬ (-10 ≤ e.temp_max_c ∧ e.temp_max_c ≤ 50) then none
  else if ordering_validator_rejects (some e.temp_min_c) none e.temp_max_c then none
  else if ¬ (-10 ≤ e.temp_optimal_c ∧ e.temp_optimal_c ≤ 50) then none
  else if ¬ (0 ≤ e.rainfall_min_mm) then none
  else if ¬ (e.rainfall_max_mm.all (fun v => decide (0 ≤ v)) = true) then none
  else if rainfall_validator_rejects e.rainfall_min_mm e.rainfall_max_mm then none
  else
    match validate_growing_months e.growing_season_months with
    | none => none
    | some months =>
      if ¬ (30 ≤ e.growth_duration_days ∧ e.growth_duration_days ≤ 365) then none
      else if ¬ (0 ≤ e.typical_yield_per_acre) then none
      else if ¬ (0 ≤ e.base_market_price_per_kg) then none
      else some
        { crop_name := e.crop_name
          ph_min := e.ph_min
          ph_max := e.ph_max
          ph_optimal := e.ph_optimal
          temp_min_c := e.temp_min_c
          temp_max_c := e.temp_max_c
          temp_optimal_c := e.temp_optimal_c
          rainfall_min_mm := e.rainfall_min_mm
          rainfall_max_mm := e.rainfall_max_mm
          growing_season_months := months
          soil_types := sts
          water_requirement := wr
          growth_duration_days := e.growth_duration_days
          typical_yield_per_acre := e.typical_yield_per_acre
          base_market_price_per_kg := e.base_market_price_per_kg }

/-- The `[SoilType(st) for st in ...]` conversion: every listed soil type must
convert, or the comprehension raises. -/
def soil_types_of_values : List String → Option (List SoilType)
  | [] => some []
  | s :: rest =>
    match soil_type_of_value s with
    | none => none
    | some t => (soil_types_of_values rest).map (fun ts => t :: ts)

/-- One iteration of the loading loop in `CropDatabase._load_crop_data`: enum
conversions, then `CropRequirements` construction; any raised error is caught
and the entry skipped. -/
def load_crop_entry (e : RawCropEntry) : Option CropRequirements :=
  match water_requirement_of_value e.water_requirement with
  | none => none
  | some wr =>
    match soil_types_of_values e.soil_types with
    | none => none
    | some sts => validate_crop_requirements e wr sts

/-- `CropDatabase._load_crop_data`: each YAML entry (dict key, raw record) is
loaded independently; a failing entry is skipped with a warning and loading
continues with the rest. -/
def load_crop_data (entries : List (String × RawCropEntry)) :
    List (String × CropRequirements) :=
  entries.filterMap (fun p => (load_crop_entry p.2).map (fun cr => (p.1, cr)))

/-- A representative validated catalog entry, used as concrete input. -/
def wheat_req : CropRequirements :=
  { crop_name := "wheat"
    ph_min := 6
    ph_max := 7.5
    ph_optimal := 6.5
    temp_min_c := 15
    temp_max_c := 25
    temp_optimal_c := 20
    rainfall_min_mm := 100
    rainfall_max_mm := some 200
    growing_season_months := [11, 12, 1]
    soil_types := [.loam, .clay_loam]
    water_requirement := .medium
    growth_duration_days := 120
    typical_yield_per_acre := 1800
    base_market_price_per_kg := 25 }

/-- A snapshot in which every optional source field is absent. -/
def empty_location : LocationData :=
  { location :=
      { coordinates := { latitude := 20, longitude := 75 }, city := none, state := none }
    soil_profile := none
    weather_data := none
    rainfall_data := none
    market_prices := none
    timestamp := none }

/-- A soil profile holding only a pH measurement and a loam texture. -/
def soil_with_ph (ph : ℚ) : SoilProfile :=
  { properties := { ph_h2o := some ph }, texture := some .loam }

/-- A one-record rainfall series with the given 30-day total. -/
def rainfall_total (mm : ℚ) : RainfallData :=
  { records := [{ date := "2024-01-15", precipitation_mm := mm }] }

/-- C2: for every crop-requirements record, each of the five sub-scores is the
neutral 0.5 whenever the snapshot field it depends on is absent (`None`, or an
empty rainfall record list), and on a snapshot with no source data at all the
scorer still returns a total result, namely overall 0.5 with all five
sub-scores 0.5. -/
theorem neutral_subscores_on_missing_data (cr : CropRequirements) :
    calculate_ph_score cr none = 0.5
    ∧ calculate_temperature_score cr none = 0.5
    ∧ calculate_soil_type_score cr none = 0.5
    ∧ (∀ rd : Option RainfallData,
        (rd = none ∨ ∃ r, rd = some r ∧ r.records = []) →
        calculate_rainfall_score cr rd = 0.5
          ∧ calculate_water_availability_score cr rd = 0.5)
    ∧ (∀ ld : LocationData, ld.soil_profile = none → ld.weather_data = none →
        ld.rainfall_data = none →
        calculate_suitability_score default_scoring_weights cr ld =
          (0.5, ⟨0.5, 0.5, 0.5, 0.5, 0.5⟩)) := by
  refine ⟨rfl, rfl, rfl, ?_, ?_⟩
  · rintro rd (rfl | ⟨r, rfl, hr⟩)
    · exact ⟨rfl, rfl⟩
    · constructor <;>
        simp [calculate_rainfall_score, calculate_water_availability_score, hr]
  · intro ld h1 h2 h3
    simp [calculate_suitability_score, calculate_ph_score, calculate_temperature_score,
      calculate_rainfall_score, calculate_soil_type_score,
      calculate_water_availability_score, h1, h2, h3, default_scoring_weights]
    norm_num [round3, round_half_even]

/-- Witness for `neutral_subscores_on_missing_data` at a concrete crop, an
empty rainfall record list and an all-absent snapshot. -/
theorem neutral_subscores_witness :
    (calculate_rainfall_score wheat_req (some ⟨[]⟩) = 0.5
      ∧ calculate_water_availability_score wheat_req (some ⟨[]⟩) = 0.5)
    ∧ calculate_suitability_score default_scoring_weights wheat_req empty_location =
        (0.5, ⟨0.5, 0.5, 0.5, 0.5, 0.5⟩) :=
  ⟨(neutral_subscores_on_missing_data wheat_req).2.2.2.1 (some ⟨[]⟩)
      (Or.inr ⟨⟨[]⟩, rfl, rfl⟩),
    (neutral_subscores_on_missing_data wheat_req).2.2.2.2 empty_location rfl rfl rfl⟩

/-- The water-stress index the spec describes: four fixed thresholds on the
30-day rainfall total. -/
def water_stress_index (recent : ℚ) : ℚ :=
  if recent ≥ 150 then 0.0
  else if recent ≥ 100 then 0.3
  else if recent ≥ 50 then 0.6
  else 0.9

/-- The stress tolerance implied by the crop's water-requirement tier. -/
def stress_tolerance : WaterRequirement → ℚ
  | .low => 0.8
  | .medium => 0.5
  | .high => 0.2

/-- The graduated decay of the water-availability score as stress exceeds
tolerance. -/
def stress_decay (stress tolerance : ℚ) : ℚ :=
  if stress ≤ tolerance then 1.0
  else if stress ≤ tolerance + 0.2 then 0.7
  else if stress ≤ tolerance + 0.4 then 0.4
  else 0.1

/-- C6: with rainfall data present, the water-availability sub-score is
exactly the composition of the threshold stress index, the per-tier tolerance
and the graduated decay; the decay steps the score down by 0.3 per band; and a
30-day total of 40mm yields stress 0.9. -/
theorem water_availability_structure (cr : CropRequirements) (rd : RainfallData)
    (h : rd.records ≠ []) :
    calculate_water_availability_score cr (some rd) =
      stress_decay (water_stress_index (rd.get_total_precipitation 30))
        (stress_tolerance cr.water_requirement)
    ∧ water_stress_index 40 = 0.9
    ∧ (∀ tol s : ℚ,
        (s ≤ tol → stress_decay s tol = 1)
        ∧ (tol < s → s ≤ tol + 0.2 → stress_decay s tol = 1 - 0.3)
        ∧ (tol + 0.2 < s → s ≤ tol + 0.4 → stress_decay s tol = 1 - 0.3 - 0.3)
        ∧ (tol + 0.4 < s → stress_decay s tol = 1 - 0.3 - 0.3 - 0.3)) := by
  refine ⟨?_, by norm_num [water_stress_index], ?_⟩
  · simp only [calculate_water_availability_score, water_stress_index, stress_decay,
      stress_tolerance, if_neg h]
  · intro tol s
    refine ⟨fun h1 => ?_, fun h1 h2 => ?_, fun h1 h2 => ?_, fun h1 => ?_⟩
    · rw [stress_decay, if_pos h1] <;> norm_num
    · rw [stress_decay, if_neg (not_le.mpr h1), if_pos h2] <;> norm_num
    · rw [stress_decay, if_neg (by linarith), if_neg (not_le.mpr h1), if_pos h2] <;>
        norm_num
    · rw [stress_decay, if_neg (by linarith), if_neg (by linarith),
        if_neg (not_le.mpr h1)] <;> norm_num

/-- Witness for `water_availability_structure` at a concrete crop and a
40mm rainfall series. -/
theorem water_availability_witness :
    calculate_water_availability_score wheat_req (some (rainfall_total 40)) =
      stress_decay (water_stress_index ((rainfall_total 40).get_total_precipitation 30))
        (stress_tolerance wheat_req.water_requirement) :=
  (water_availability_structure wheat_req (rainfall_total 40) (by decide)).1

/-- C7 counterexample: at pH 7.4 against requirements {min 6.0, max 7.5,
optimal 6.5} — inside the interval but more than 0.5 from optimal — the code
returns 0.8, a value the claim's three-way case analysis (1.0 / 0.6 / 0.2
otherwise) does not allow. -/
theorem ph_score_inside_not_optimal_counterexample :
    calculate_ph_score wheat_req (some (soil_with_ph 7.4)) = 0.8
    ∧ ¬ ((0.8 : ℚ) = 1.0 ∨ (0.8 : ℚ) = 0.6 ∨ (0.8 : ℚ) = 0.2) := by
  constructor
  · simp only [calculate_ph_score, soil_with_ph, wheat_req]
    norm_num [abs_le]
  · norm_num

/-- C7 amended: the pH sub-score is 1.0 inside [ph_min, ph_max] within 0.5 of
optimal, 0.8 inside the interval but more than 0.5 from optimal, 0.6 within
0.5 beyond either edge, and 0.2 otherwise; Scenario A (pH 6.8 against
{6.0, 7.5, 6.5}) scores 1.0. -/
theorem ph_score_cases (cr : CropRequirements) (sp : SoilProfile) (ph : ℚ)
    (hph : sp.properties.ph_h2o = some ph) :
    (cr.ph_min ≤ ph → ph ≤ cr.ph_max → |ph - cr.ph_optimal| ≤ 0.5 →
      calculate_ph_score cr (some sp) = 1.0)
    ∧ (cr.ph_min ≤ ph → ph ≤ cr.ph_max → 0.5 < |ph - cr.ph_optimal| →
      calculate_ph_score cr (some sp) = 0.8)
    ∧ ((ph < cr.ph_min ∨ cr.ph_max < ph) → cr.ph_min - 0.5 ≤ ph →
      ph ≤ cr.ph_max + 0.5 → calculate_ph_score cr (some sp) = 0.6)
    ∧ ((ph < cr.ph_min - 0.5 ∨ cr.ph_max + 0.5 < ph) →
      calculate_ph_score cr (some sp) = 0.2)
    ∧ calculate_ph_score wheat_req (some (soil_with_ph 6.8)) = 1.0 := by
  refine ⟨fun h1 h2 h3 => ?_, fun h1 h2 h3 => ?_, fun h1 h2 h3 => ?_, fun h1 => ?_,
    by simp only [calculate_ph_score, soil_with_ph, wheat_req]; norm_num [abs_le]⟩
  · simp only [calculate_ph_score, hph, if_pos (And.intro h1 h2), if_pos h3]
  · simp only [calculate_ph_score, hph, if_pos (And.intro h1 h2),
      if_neg (not_le.mpr h3)]
  · have hout : ¬ (cr.ph_min ≤ ph ∧ ph ≤ cr.ph_max) := by
      rcases h1 with h | h
      · exact fun hc => absurd hc.1 (not_le.mpr h)
      · exact fun hc => absurd hc.2 (not_le.mpr h)
    simp only [calculate_ph_score, hph, if_neg hout, if_pos (And.intro h2 h3)]
  · have hout : ¬ (cr.ph_min ≤ ph ∧ ph ≤ cr.ph_max) := by
      rcases h1 with h | h
      · exact fun hc => by linarith [hc.1]
      · exact fun hc => by linarith [hc.2]
    have hout2 : ¬ (cr.ph_min - 0.5 ≤ ph ∧ ph ≤ cr.ph_max + 0.5) := by
      rcases h1 with h | h
      · exact fun hc => by linarith [hc.1]
      · exact fun hc => by linarith [hc.2]
    simp only [calculate_ph_score, hph, if_neg hout, if_neg hout2]

/-- Witness for `ph_score_cases` at Scenario A's concrete pH and crop. -/
theorem ph_score_cases_witness :
    calculate_ph_score wheat_req (some (soil_with_ph 6.8)) = 1.0 :=
  (ph_score_cases wheat_req (soil_with_ph 6.8) 6.8 rfl).1
    (by norm_num [wheat_req]) (by norm_num [wheat_req])
    (by norm_num [wheat_req, abs_le])

/-- The profitability formula the spec states:
`current_price × typical_yield × trend_multiplier × (1 − volatility×0.3)`,
normalized against the fixed 100000 ceiling and clamped to [0, 1]. -/
def profit_formula (a : PriceAnalysis) (yield_per_acre : ℚ) : ℚ :=
  let trend_multiplier : ℚ :=
    match a.price_trend with
    | .rising => 1.2
    | .falling => 0.8
    | .volatile => 0.9
    | .stable => 1.0
  max 0 (min (a.current_price * yield_per_acre * trend_multiplier *
    (1 - a.volatility_index * 0.3) / 100000) 1)

/-- A market analysis whose formula value is exactly 0 (current price 0). -/
def zero_price_analysis : PriceAnalysis :=
  { crop_name := "wheat"
    current_price := 0
    average_price_3_months := 10
    average_price_12_months := 10
    price_trend := .stable
    volatility_index := 0
    price_change_percent := 0 }

/-- A market data set holding only `zero_price_analysis`. -/
def zero_price_market : MarketPrices := { prices := [], analyses := [zero_price_analysis] }

/-- A snapshot whose only populated source field is `zero_price_market`. -/
def zero_price_location : LocationData :=
  { empty_location with market_prices := some zero_price_market }

/-- C8 counterexample: with a market price analysis present whose formula
value is 0 (current price 0), the underlying market scorer does return
`some 0`, but the recommendation's profitability score is 0.5, not the
claimed formula value: the ranker's `... or 0.5` fallback treats the falsy
0.0 like missing data. -/
theorem profitability_zero_counterexample :
    MarketPrices.calculate_profitability_score zero_price_market "wheat"
        wheat_req.typical_yield_per_acre = some 0
    ∧ profit_formula zero_price_analysis wheat_req.typical_yield_per_acre = 0
    ∧ matcher_profitability_score "wheat" zero_price_location wheat_req = 0.5
    ∧ (0.5 : ℚ) ≠ 0 := by
  have h1 : MarketPrices.get_crop_analysis zero_price_market "wheat" =
      some zero_price_analysis := by
    simp [MarketPrices.get_crop_analysis, zero_price_market, zero_price_analysis]
  have h2 : MarketPrices.calculate_profitability_score zero_price_market "wheat"
      wheat_req.typical_yield_per_acre = some 0 := by
    simp only [MarketPrices.calculate_profitability_score, h1, zero_price_analysis]
    norm_num
  refine ⟨h2, by norm_num [profit_formula, zero_price_analysis], ?_, by norm_num⟩
  simp only [matcher_profitability_score, zero_price_location, empty_location, h2]
  norm_num

/-- C8 amended: with a market price analysis present, the recommendation's
profitability score equals the spec's formula value except when that value is
exactly 0, in which case the neutral 0.5 is substituted; and every built
recommendation's expected profit equals
`typical_yield × base_price × (its profitability score)`. -/
theorem profitability_formula_cases (ld : LocationData) (mp : MarketPrices)
    (a : PriceAnalysis) (cr : CropRequirements) (crop_name : String)
    (hmp : ld.market_prices = some mp)
    (ha : mp.get_crop_analysis crop_name = some a) :
    mp.calculate_profitability_score crop_name cr.typical_yield_per_acre =
      some (profit_formula a cr.typical_yield_per_acre)
    ∧ matcher_profitability_score crop_name ld cr =
      (if profit_formula a cr.typical_yield_per_acre = 0 then 0.5
        else profit_formula a cr.typical_yield_per_acre)
    ∧ (∀ (w : ScoringWeights) (ldx : LocationData) (nm : String)
        (crx : CropRequirements),
        (build_recommendation w ldx nm crx).expected_profit_per_acre =
          crx.typical_yield_per_acre * crx.base_market_price_per_kg *
            (build_recommendation w ldx nm crx).profitability_score) := by
  have h1 : mp.calculate_profitability_score crop_name cr.typical_yield_per_acre =
      some (profit_formula a cr.typical_yield_per_acre) := by
    simp only [MarketPrices.calculate_profitability_score, ha, profit_formula]
    cases a.price_trend <;> norm_num
  refine ⟨h1, ?_, fun w ldx nm crx => rfl⟩
  simp only [matcher_profitability_score, hmp, h1]

/-- A market analysis with a nonzero formula value. -/
def rich_analysis : PriceAnalysis :=
  { crop_name := "wheat"
    current_price := 25
    average_price_3_months := 24
    average_price_12_months := 23
    price_trend := .rising
    volatility_index := 0.3
    price_change_percent := 2.8 }

/-- A market data set holding only `rich_analysis`. -/
def rich_market : MarketPrices := { prices := [], analyses := [rich_analysis] }

/-- A snapshot whose only populated source field is `rich_market`. -/
def rich_market_location : LocationData :=
  { empty_location with market_prices := some rich_market }

/-- Witness for `profitability_formula_cases` at a concrete snapshot whose
market analysis has a nonzero formula value. -/
theorem profitability_formula_witness :
    matcher_profitability_score "wheat" rich_market_location wheat_req =
      (if profit_formula rich_analysis wheat_req.typical_yield_per_acre = 0 then 0.5
        else profit_formula rich_analysis wheat_req.typical_yield_per_acre) := by
  have ha : MarketPrices.get_crop_analysis rich_market "wheat" = some rich_analysis := by
    simp [MarketPrices.get_crop_analysis, rich_market, rich_analysis]
  exact (profitability_formula_cases rich_market_location rich_market rich_analysis
    wheat_req "wheat" rfl ha).2.1

/-- The Bool-valued predicate selecting recommendations with a given combined
score. -/
def has_combined (q : ℚ) (r : CropRecommendation) : Bool :=
  decide (combined_key r = q)

lemma filter_orderedInsert_of_key {x : CropRecommendation}
    {l : List CropRecommendation} {q : ℚ} (hx : combined_key x = q) :
    (List.orderedInsert rec_order x l).filter (has_combined q) =
      x :: l.filter (has_combined q) := by
  induction l with
  | nil => simp [List.orderedInsert, has_combined, hx]
  | cons b t ih =>
    by_cases hr : rec_order x b
    · simp [List.orderedInsert, if_pos hr, has_combined, hx]
    · have hb : combined_key b ≠ q := by
        rw [rec_order, not_le] at hr
        rw [← hx]
        exact ne_of_gt hr
      simp only [List.orderedInsert, if_neg hr, List.filter_cons,
        has_combined, decide_eq_true_eq, hb, ite_false]
      simpa [has_combined] using ih

lemma filter_orderedInsert_of_ne {x : CropRecommendation}
    {l : List CropRecommendation} {q : ℚ} (hx : combined_key x ≠ q) :
    (List.orderedInsert rec_order x l).filter (has_combined q) =
      l.filter (has_combined q) := by
  induction l with
  | nil => simp [List.orderedInsert, has_combined, hx]
  | cons b t ih =>
    by_cases hr : rec_order x b
    · simp [List.orderedInsert, if_pos hr, has_combined, hx]
    · simp only [List.orderedInsert, if_neg hr, List.filter_cons]
      rw [ih]

/-- Stability of the ranker's sort: for each combined-score value, the sorted
list holds exactly the candidates with that value, in their original
(catalog) order. -/
lemma filter_insertionSort (l : List CropRecommendation) (q : ℚ) :
    (List.insertionSort rec_order l).filter (has_combined q) =
      l.filter (has_combined q) := by
  induction l with
  | nil => rfl
  | cons x t ih =>
    by_cases hx : combined_key x = q
    · rw [List.insertionSort, filter_orderedInsert_of_key hx, ih,
        List.filter_cons_of_pos (by simp [has_combined, hx])]
    · rw [List.insertionSort, filter_orderedInsert_of_ne hx, ih,
        List.filter_cons_of_neg (by simp [has_combined, hx])]

/-- C3 amended: the recommendation list is sorted descending by
`combined = 0.7*suitability + 0.3*profitability`, and recommendations with
equal combined score appear in the order their crops appear in the catalog
(the sort is stable; no alphabetical tiebreak is applied). -/
theorem ranking_sorted_and_stable (w : ScoringWeights) (db : CropDatabase)
    (ld : LocationData) (max_crops : ℕ) (min_score : ℚ) :
    List.Pairwise rec_order (get_crop_recommendations w db ld max_crops min_score)
    ∧ ∀ q : ℚ,
      List.Sublist
        ((get_crop_recommendations w db ld max_crops min_score).filter (has_combined q))
        ((candidate_recommendations w db ld min_score).filter (has_combined q)) := by
  constructor
  · exact List.Pairwise.sublist (List.take_sublist _ _)
      (List.sorted_insertionSort rec_order _)
  · intro q
    rw [get_crop_recommendations, ← filter_insertionSort
      (candidate_recommendations w db ld min_score) q]
    exact List.Sublist.filter _ (List.take_sublist _ _)

lemma suitability_all_absent (cr : CropRequirements) :
    calculate_suitability_score default_scoring_weights cr empty_location =
      (0.5, ⟨0.5, 0.5, 0.5, 0.5, 0.5⟩) := by
  simp [calculate_suitability_score, calculate_ph_score, calculate_temperature_score,
    calculate_rainfall_score, calculate_soil_type_score,
    calculate_water_availability_score, empty_location, default_scoring_weights]
  norm_num [round3, round_half_even]

lemma build_on_empty_fields (nm : String) (cr : CropRequirements) :
    (build_recommendation default_scoring_weights empty_location nm cr).suitability_score
        = 0.5
    ∧ (build_recommendation default_scoring_weights empty_location nm cr).profitability_score
        = 0.5
    ∧ (build_recommendation default_scoring_weights empty_location nm cr).crop_name = nm := by
  refine ⟨?_, ?_, rfl⟩ <;>
    simp [build_recommendation, suitability_all_absent cr,
      matcher_profitability_score, show empty_location.market_prices = none from rfl]

/-- The two tied catalog entries of the C3 counterexample, stored in
non-alphabetical catalog order. -/
def tie_catalog : CropDatabase :=
  ⟨[("b", { wheat_req with crop_name := "b" }),
    ("a", { wheat_req with crop_name := "a" })]⟩

lemma tie_candidates :
    candidate_recommendations default_scoring_weights tie_catalog empty_location 0.3 =
      [build_recommendation default_scoring_weights empty_location "b"
          { wheat_req with crop_name := "b" },
        build_recommendation default_scoring_weights empty_location "a"
          { wheat_req with crop_name := "a" }] := by
  have hb : python_lower "b" = "b" := rfl
  have ha : python_lower "a" = "a" := rfl
  have hbb : ("b" == "b") = true := rfl
  have haa : ("a" == "a") = true := rfl
  have hba : ("b" == "a") = false := rfl
  have hab : ("a" == "b") = false := rfl
  simp only [candidate_recommendations, CropDatabase.get_all_crops,
    CropDatabase.get_crop_requirements, tie_catalog, List.map_cons, List.map_nil,
    List.filterMap_cons, List.filterMap_nil, hb, ha, List.find?, hbb, haa, hba, hab]
  norm_num [(build_on_empty_fields "b" { wheat_req with crop_name := "b" }).1,
    (build_on_empty_fields "a" { wheat_req with crop_name := "a" }).1]

/-- C3 counterexample: on a snapshot with no source data, two catalog entries
stored in the order ["b", "a"] both get combined score 0.5, and the ranker
returns them in catalog order ["b", "a"] — not in ascending alphabetical
order, since "a" precedes "b" alphabetically (lexicographically on the
character lists). -/
theorem ranking_tie_counterexample :
    (get_crop_recommendations default_scoring_weights tie_catalog empty_location
        5 0.3).map (fun r => (r.crop_name, combined_key r)) =
      [("b", 0.5), ("a", 0.5)]
    ∧ "a".data < "b".data := by
  have hb := build_on_empty_fields "b" { wheat_req with crop_name := "b" }
  have ha := build_on_empty_fields "a" { wheat_req with crop_name := "a" }
  constructor
  · rw [get_crop_recommendations, tie_candidates]
    have horder : rec_order
        (build_recommendation default_scoring_weights empty_location "b"
          { wheat_req with crop_name := "b" })
        (build_recommendation default_scoring_weights empty_location "a"
          { wheat_req with crop_name := "a" }) := by
      rw [rec_order, combined_key, combined_key, hb.1, hb.2.1, ha.1, ha.2.1]
    rw [List.insertionSort, List.insertionSort, List.insertionSort,
      List.orderedInsert, List.orderedInsert, if_pos horder]
    simp only [List.take, List.map_cons, List.map_nil, combined_key,
      hb.1, hb.2.1, hb.2.2, ha.1, ha.2.1, ha.2.2]
    norm_num
  · decide

lemma mem_get_risk_factors (sb : ScoreBreakdown) :
    (sb.soil_ph_score < 0.4 ↔ "Poor soil pH match" ∈ get_risk_factors sb)
    ∧ (sb.temperature_score < 0.4 ↔
        "Temperature outside optimal range" ∈ get_risk_factors sb)
    ∧ (sb.rainfall_score < 0.4 ↔ "Insufficient rainfall" ∈ get_risk_factors sb)
    ∧ (sb.water_availability_score < 0.4 ↔ "High water stress" ∈ get_risk_factors sb) := by
  unfold get_risk_factors
  split_ifs <;> simp_all +decide

lemma mem_recommendations {w : ScoringWeights} {db : CropDatabase} {ld : LocationData}
    {mx : ℕ} {ms : ℚ} {r : CropRecommendation}
    (hr : r ∈ get_crop_recommendations w db ld mx ms) :
    ∃ nm cr, r = build_recommendation w ld nm cr := by
  have h1 : r ∈ List.insertionSort rec_order (candidate_recommendations w db ld ms) :=
    List.take_subset _ _ hr
  have h2 : r ∈ candidate_recommendations w db ld ms :=
    (List.mem_insertionSort (r := rec_order)).mp h1
  rw [candidate_recommendations] at h2
  obtain ⟨nm, _, hf⟩ := List.mem_filterMap.mp h2
  cases hcr : db.get_crop_requirements nm with
  | none => rw [hcr] at hf; simp at hf
  | some cr =>
    rw [hcr] at hf
    by_cases hlt : (build_recommendation w ld nm cr).suitability_score < ms
    · simp only [if_pos hlt] at hf
      exact absurd hf (by simp)
    · simp only [if_neg hlt, Option.some.injEq] at hf
      exact ⟨nm, cr, hf.symm⟩

/-- C9 amended: every recommendation produced by the ranker carries the risk
tier given by the combined-score thresholds (≥0.8 low, ≥0.6 medium, else
high), and its risk-factor list names a factor for the pH, temperature,
rainfall and water-availability sub-scores below 0.4 — but not for the
soil-type sub-score, which the source never checks. -/
theorem risk_assignment (w : ScoringWeights) (db : CropDatabase) (ld : LocationData)
    (mx : ℕ) (ms : ℚ) (r : CropRecommendation)
    (hr : r ∈ get_crop_recommendations w db ld mx ms) :
    r.risk_level = (if combined_key r ≥ 0.8 then "low"
      else if combined_key r ≥ 0.6 then "medium" else "high")
    ∧ (r.soil_ph_score < 0.4 ↔ "Poor soil pH match" ∈ r.risk_factors)
    ∧ (r.temperature_score < 0.4 ↔
        "Temperature outside optimal range" ∈ r.risk_factors)
    ∧ (r.rainfall_score < 0.4 ↔ "Insufficient rainfall" ∈ r.risk_factors)
    ∧ (r.water_availability_score < 0.4 ↔ "High water stress" ∈ r.risk_factors) := by
  obtain ⟨nm, cr, rfl⟩ := mem_recommendations hr
  refine ⟨?_, mem_get_risk_factors _⟩
  simp only [build_recommendation, calculate_risk_level, combined_key, ge_iff_le]

/-- The single catalog entry of the C9 counterexample: a crop demanding clay
soil, scored against a loam location. -/
def clay_crop : CropRequirements :=
  { wheat_req with crop_name := "clayey", soil_types := [.clay] }

/-- A snapshot whose only populated source field is a loam soil profile with
pH 6.5. -/
def loam_location : LocationData :=
  { empty_location with soil_profile := some (soil_with_ph 6.5) }

/-- A catalog holding only `clay_crop`. -/
def clay_catalog : CropDatabase := ⟨[("clayey", clay_crop)]⟩

/-- The single recommendation the ranker produces for `clay_catalog` at
`loam_location`. -/
def clay_rec : CropRecommendation :=
  build_recommendation default_scoring_weights loam_location "clayey" clay_crop

lemma clay_scores :
    calculate_suitability_score default_scoring_weights clay_crop loam_location =
      (0.63, ⟨1.0, 0.5, 0.5, 0.3, 0.5⟩) := by
  have h1 : (("clay" : String) == "loam") = false := rfl
  simp [calculate_suitability_score, calculate_ph_score, calculate_temperature_score,
    calculate_rainfall_score, calculate_soil_type_score,
    calculate_water_availability_score, loam_location, empty_location, soil_with_ph,
    clay_crop, wheat_req, get_similar_soil_types, SoilType.value, SoilTexture.value,
    default_scoring_weights, h1]
  norm_num [abs_le, round3, round_half_even]

lemma clay_rec_fields :
    clay_rec.suitability_score = 0.63 ∧ clay_rec.profitability_score = 0.5
    ∧ clay_rec.soil_type_score = 0.3 ∧ clay_rec.risk_factors = [] := by
  refine ⟨?_, ?_, ?_, ?_⟩ <;>
    simp [clay_rec, build_recommendation, clay_scores, matcher_profitability_score,
      show loam_location.market_prices = none from rfl, get_risk_factors] <;>
    norm_num

lemma clay_output :
    get_crop_recommendations default_scoring_weights clay_catalog loam_location 5 0.3 =
      [clay_rec] := by
  rw [get_crop_recommendations]
  have hc : candidate_recommendations default_scoring_weights clay_catalog
      loam_location 0.3 = [clay_rec] := by
    have h1 : python_lower "clayey" = "clayey" := rfl
    have h2 : ("clayey" == "clayey") = true := rfl
    have hlt : ¬ ((build_recommendation default_scoring_weights loam_location
        "clayey" clay_crop).suitability_score < 0.3) := by
      have h3 := clay_rec_fields.1
      rw [clay_rec] at h3
      rw [h3]; norm_num
    simp only [candidate_recommendations, CropDatabase.get_all_crops,
      CropDatabase.get_crop_requirements, clay_catalog, List.map_cons, List.map_nil,
      List.filterMap_cons, List.filterMap_nil, h1, h2, List.find?, Option.map_some',
      if_neg hlt]
    rfl
  rw [hc]
  rfl

/-- C9 counterexample: the single recommendation for `clay_catalog` at
`loam_location` has soil-type sub-score 0.3 < 0.4, yet its risk-factor list is
empty — the ranker names no factor for a low soil-type sub-score. -/
theorem risk_factor_counterexample :
    (get_crop_recommendations default_scoring_weights clay_catalog loam_location
        5 0.3).map (fun r => (r.soil_type_score, r.risk_factors)) = [(0.3, [])]
    ∧ (0.3 : ℚ) < 0.4 := by
  rw [clay_output]
  simp [clay_rec_fields.2.2.1, clay_rec_fields.2.2.2]
  norm_num

/-- Witness for `risk_assignment` at the concrete recommendation `clay_rec`,
which is a member of the concrete ranker output by `clay_output`. -/
theorem risk_assignment_witness :
    clay_rec.risk_level = (if combined_key clay_rec ≥ 0.8 then "low"
      else if combined_key clay_rec ≥ 0.6 then "medium" else "high")
    ∧ (clay_rec.soil_ph_score < 0.4 ↔ "Poor soil pH match" ∈ clay_rec.risk_factors)
    ∧ (clay_rec.temperature_score < 0.4 ↔
        "Temperature outside optimal range" ∈ clay_rec.risk_factors)
    ∧ (clay_rec.rainfall_score < 0.4 ↔ "Insufficient rainfall" ∈ clay_rec.risk_factors)
    ∧ (clay_rec.water_availability_score < 0.4 ↔
        "High water stress" ∈ clay_rec.risk_factors) :=
  risk_assignment default_scoring_weights clay_catalog loam_location 5 0.3 clay_rec
    (by rw [clay_output]; exact List.mem_singleton_self _)

/-- A raw catalog entry satisfying every documented invariant. -/
def good_entry (nm : String) : RawCropEntry :=
  { crop_name := nm
    ph_min := 6
    ph_max := 7.5
    ph_optimal := 6.5
    temp_min_c := 15
    temp_max_c := 25
    temp_optimal_c := 20
    rainfall_min_mm := 100
    rainfall_max_mm := some 200
    growing_season_months := [6, 7]
    soil_types := ["loam"]
    water_requirement := "medium"
    growth_duration_days := 120
    typical_yield_per_acre := 1800
    base_market_price_per_kg := 25 }

/-- The requirements record `good_entry` validates to. -/
def good_req (nm : String) : CropRequirements :=
  { crop_name := nm
    ph_min := 6
    ph_max := 7.5
    ph_optimal := 6.5
    temp_min_c := 15
    temp_max_c := 25
    temp_optimal_c := 20
    rainfall_min_mm := 100
    rainfall_max_mm := some 200
    growing_season_months := [6, 7]
    soil_types := [.loam]
    water_requirement := .medium
    growth_duration_days := 120
    typical_yield_per_acre := 1800
    base_market_price_per_kg := 25 }

/-- Scenario D's entry "x": ph_min = 8.0 exceeds ph_optimal = 6.0, violating
the ordering invariant min ≤ optimal ≤ max. -/
def bad_ph_entry : RawCropEntry :=
  { good_entry "x" with ph_min := 8, ph_max := 9, ph_optimal := 6 }

/-- The record the code actually builds from `bad_ph_entry`. -/
def bad_ph_req : CropRequirements :=
  { good_req "x" with ph_min := 8, ph_max := 9, ph_optimal := 6 }

/-- An entry with rainfall_min > rainfall_max, an ordering violation the
loader does reject (both fields sit before the validator's field). -/
def bad_rainfall_entry : RawCropEntry :=
  { good_entry "y" with rainfall_min_mm := 300, rainfall_max_mm := some 200 }

lemma load_good_entry (nm : String) :
    load_crop_entry (good_entry nm) = some (good_req nm) := by
  have h3 : validate_growing_months [6, 7] = some [6, 7] := by decide
  have h4 : water_requirement_of_value "medium" = some WaterRequirement.medium := rfl
  have h5 : soil_types_of_values ["loam"] = some [SoilType.loam] := rfl
  simp only [load_crop_entry, good_entry, h4, h5]
  norm_num [validate_crop_requirements, ordering_validator_rejects,
    rainfall_validator_rejects, h3, good_req]

lemma load_bad_ph_entry : load_crop_entry bad_ph_entry = some bad_ph_req := by
  have h3 : validate_growing_months [6, 7] = some [6, 7] := by decide
  have h4 : water_requirement_of_value "medium" = some WaterRequirement.medium := rfl
  have h5 : soil_types_of_values ["loam"] = some [SoilType.loam] := rfl
  simp only [load_crop_entry, bad_ph_entry, good_entry, h4, h5]
  norm_num [validate_crop_requirements, ordering_validator_rejects,
    rainfall_validator_rejects, h3, bad_ph_req, good_req]

lemma load_bad_rainfall_entry : load_crop_entry bad_rainfall_entry = none := by
  have h4 : water_requirement_of_value "medium" = some WaterRequirement.medium := rfl
  have h5 : soil_types_of_values ["loam"] = some [SoilType.loam] := rfl
  simp only [load_crop_entry, bad_rainfall_entry, good_entry, h4, h5]
  norm_num [validate_crop_requirements, ordering_validator_rejects,
    rainfall_validator_rejects]

/-- C5, code bug: the loader's own validator (`validate_ph_range`, whose error
message demands `min <= optimal <= max`) is meant to reject entry "x" with
ph_min = 8 > ph_optimal = 6 — but because `ph_optimal` is declared after
`ph_max`, it is absent from pydantic's `values` when the validator runs, so
the check is silently skipped and "x" is loaded. An ordering violation among
fields that are declared in the right order (rainfall min/max, entry "y") is
rejected, and loading always continues past a bad entry. -/
theorem catalog_ph_ordering_not_enforced :
    (load_crop_data [("rice", good_entry "rice"), ("x", bad_ph_entry),
        ("y", bad_rainfall_entry)]).map (fun p => p.1) = ["rice", "x"]
    ∧ ¬ (bad_ph_entry.ph_min ≤ bad_ph_entry.ph_optimal) := by
  constructor
  · simp [load_crop_data, load_good_entry, load_bad_ph_entry, load_bad_rainfall_entry]
  · simp only [bad_ph_entry, good_entry]
    norm_num

lemma find?_append_of_none {α : Type} (p : α → Bool) {l1 : List α} (l2 : List α)
    (h : l1.find? p = none) : (l1 ++ l2).find? p = l2.find? p := by
  induction l1 with
  | nil => rfl
  | cons x t ih =>
    cases hp : p x with
    | true =>
      rw [List.find?_cons_of_pos t hp] at h
      exact absurd h (by simp)
    | false =>
      rw [List.find?_cons_of_neg t (by simp [hp])] at h
      rw [List.cons_append, List.find?_cons_of_neg _ (by simp [hp])]
      exact ih h

lemma get_cached_pair {cache : Cache} {ttl now lat lon : ℚ}
    (h : (get_cached_data cache ttl now lat lon).1 = none) :
    get_cached_data cache ttl now lat lon =
      (none, (get_cached_data cache ttl now lat lon).2) := by
  rw [← h]

/-- After a miss is stored, the key's lookup finds the freshly stored entry:
the store appends the entry (no earlier entry holds the key), and capacity
eviction only ever drops from the front. -/
lemma find?_cache_data_self (c : Cache) (lat lon : ℚ) (ld : LocationData)
    (hmiss : List.find? (fun e => decide (e.1 = (lat, lon))) c = none) :
    List.find? (fun e => decide (e.1 = (lat, lon)))
      (cache_data c lat lon ld) = some ((lat, lon), ld) := by
  have hforall := List.find?_eq_none.mp hmiss
  have hany : List.any c (fun e => decide (e.1 = (lat, lon))) = false :=
    List.any_eq_false.mpr hforall
  have hsingle : List.find? (fun e => decide (e.1 = (lat, lon))) [((lat, lon), ld)] =
      some ((lat, lon), ld) :=
    List.find?_cons_of_pos _ (by simp)
  rw [cache_data]
  simp only [hany, Bool.false_eq_true, if_false]
  by_cases hlen : 100 < (c ++ [((lat, lon), ld)]).length
  · rw [if_pos hlen]
    have hle : (c ++ [((lat, lon), ld)]).length - 100 ≤ c.length := by
      simp only [List.length_append, List.length_cons, List.length_nil]
      omega
    rw [List.drop_append_of_le_length hle]
    rw [find?_append_of_none _ _ (List.find?_eq_none.mpr
      (fun x hx => hforall x (List.drop_subset _ c hx)))]
    exact hsingle
  · rw [if_neg hlen, find?_append_of_none _ _ hmiss]
    exact hsingle

lemma populated_of_single_failure (env : FetchEnv) (hfail : failure_count env = 1)
    (loc : Location) (ts : Option ℚ) :
    populated_count
      { location := loc
        soil_profile := fetch_with_timeout env.soil
        weather_data := fetch_with_timeout env.weather
        rainfall_data := fetch_with_timeout env.rainfall
        market_prices := fetch_with_timeout env.market
        timestamp := ts } = 3 := by
  rcases env with ⟨s, w, r, m⟩
  cases s <;> cases w <;> cases r <;> cases m <;>
    simp_all [failure_count, populated_count, fetch_with_timeout,
      FetchOutcome.failedOrTimedOut]

/-- C1: on a cache miss at constructible coordinates, when exactly one of the
four fetchers fails or times out, `fetch_location_data` still returns a
snapshot (it does not raise) in which each optional field mirrors its branch's
outcome — so the failed source's field is `None` and the other three are
populated. -/
theorem partial_failure_tolerated (env : FetchEnv) (cache : Cache)
    (ttl now lat lon : ℚ)
    (hrange : -90 ≤ lat ∧ lat ≤ 90 ∧ -180 ≤ lon ∧ lon ≤ 180)
    (hmiss : (get_cached_data cache ttl now lat lon).1 = none)
    (hco : ∃ c, mk_coordinates lat lon = Except.ok c)
    (hfail : failure_count env = 1) :
    ∃ r : FetchResult, fetch_location_data env cache ttl now lat lon = Except.ok r
      ∧ r.data.soil_profile = fetch_with_timeout env.soil
      ∧ r.data.weather_data = fetch_with_timeout env.weather
      ∧ r.data.rainfall_data = fetch_with_timeout env.rainfall
      ∧ r.data.market_prices = fetch_with_timeout env.market
      ∧ populated_count r.data = 3 := by
  obtain ⟨c, hc⟩ := hco
  rw [fetch_location_data, if_neg (not_not_intro hrange), get_cached_pair hmiss, hc]
  exact ⟨_, rfl, rfl, rfl, rfl, rfl,
    populated_of_single_failure env hfail _ _⟩

/-- Scenario C's fetch environment: soil, rainfall and market succeed, the
weather branch times out. -/
def scenario_c_env : FetchEnv :=
  { soil := .ok (soil_with_ph 6.5)
    weather := .timedOut
    rainfall := .ok (rainfall_total 40)
    market := .ok rich_market }

lemma mk_coordinates_20_75 :
    mk_coordinates 20 75 = Except.ok { latitude := 20, longitude := 75 } := by
  rw [mk_coordinates]
  rw [show validate_coordinate_field (-90) 90 20 = Except.ok 20 from by
    rw [validate_coordinate_field, if_neg (by norm_num), if_neg (by
      rw [abs_of_pos (by norm_num)]; norm_num)]
    norm_num [round6, round_half_even]]
  rw [show validate_coordinate_field (-180) 180 75 = Except.ok 75 from by
    rw [validate_coordinate_field, if_neg (by norm_num), if_neg (by
      rw [abs_of_pos (by norm_num)]; norm_num)]
    norm_num [round6, round_half_even]]

/-- Witness for `partial_failure_tolerated`: Scenario C at coordinates
(20, 75) on an empty cache. -/
theorem partial_failure_witness :
    ∃ r : FetchResult, fetch_location_data scenario_c_env [] 7 0 20 75 = Except.ok r
      ∧ r.data.soil_profile = fetch_with_timeout scenario_c_env.soil
      ∧ r.data.weather_data = fetch_with_timeout scenario_c_env.weather
      ∧ r.data.rainfall_data = fetch_with_timeout scenario_c_env.rainfall
      ∧ r.data.market_prices = fetch_with_timeout scenario_c_env.market
      ∧ populated_count r.data = 3 :=
  partial_failure_tolerated scenario_c_env [] 7 0 20 75 (by norm_num) rfl
    ⟨{ latitude := 20, longitude := 75 }, mk_coordinates_20_75⟩ rfl

/-- C4: a miss-then-store call at time t0 with TTL T yields a snapshot
timestamped t0; any call in [t0, t0+T) returns that identical snapshot with
no fetcher invocation and an unchanged cache; a call at ≥ t0+T does not use
the cached entry and performs a fresh fetch timestamped at its own time. -/
theorem cache_window (env1 env2 env3 : FetchEnv) (c0 : Cache) (T t0 t1 t2 lat lon : ℚ)
    (hrange : -90 ≤ lat ∧ lat ≤ 90 ∧ -180 ≤ lon ∧ lon ≤ 180)
    (hmiss : List.find? (fun e => decide (e.1 = (lat, lon))) c0 = none)
    (hco : ∃ c, mk_coordinates lat lon = Except.ok c)
    (h01 : t0 ≤ t1) (h1T : t1 < t0 + T) (h2T : t0 + T ≤ t2) :
    ∃ r1 : FetchResult,
      fetch_location_data env1 c0 T t0 lat lon = Except.ok r1
      ∧ r1.fetched = true ∧ r1.data.timestamp = some t0
      ∧ fetch_location_data env2 r1.cache T t1 lat lon =
          Except.ok { data := r1.data, cache := r1.cache, fetched := false }
      ∧ ∃ r2 : FetchResult,
          fetch_location_data env3 r1.cache T t2 lat lon = Except.ok r2
          ∧ r2.fetched = true ∧ r2.data.timestamp = some t2 := by
  obtain ⟨c, hc⟩ := hco
  have hg0 : get_cached_data c0 T t0 lat lon = (none, c0) := by
    rw [get_cached_data, hmiss]
  have h1 : fetch_location_data env1 c0 T t0 lat lon = Except.ok
      { data := fresh_snapshot env1 t0 lat lon c
        cache := cache_data c0 lat lon (fresh_snapshot env1 t0 lat lon c)
        fetched := true } := by
    rw [fetch_location_data, if_neg (not_not_intro hrange), hg0, hc]
  have hfind := find?_cache_data_self c0 lat lon (fresh_snapshot env1 t0 lat lon c) hmiss
  have hg1 : get_cached_data
      (cache_data c0 lat lon (fresh_snapshot env1 t0 lat lon c)) T t1 lat lon =
      (some (fresh_snapshot env1 t0 lat lon c),
        cache_data c0 lat lon (fresh_snapshot env1 t0 lat lon c)) := by
    rw [get_cached_data, hfind]
    simp only [fresh_snapshot]
    rw [if_pos h1T]
  have h2 : fetch_location_data env2
      (cache_data c0 lat lon (fresh_snapshot env1 t0 lat lon c)) T t1 lat lon =
      Except.ok
        { data := fresh_snapshot env1 t0 lat lon c
          cache := cache_data c0 lat lon (fresh_snapshot env1 t0 lat lon c)
          fetched := false } := by
    rw [fetch_location_data, if_neg (not_not_intro hrange), hg1]
  have hg2 : get_cached_data
      (cache_data c0 lat lon (fresh_snapshot env1 t0 lat lon c)) T t2 lat lon =
      (none, List.eraseP (fun e => decide (e.1 = (lat, lon)))
        (cache_data c0 lat lon (fresh_snapshot env1 t0 lat lon c))) := by
    rw [get_cached_data, hfind]
    simp only [fresh_snapshot]
    rw [if_neg (not_lt.mpr h2T)]
  have h3 : fetch_location_data env3
      (cache_data c0 lat lon (fresh_snapshot env1 t0 lat lon c)) T t2 lat lon =
      Except.ok
        { data := fresh_snapshot env3 t2 lat lon c
          cache := cache_data
            (List.eraseP (fun e => decide (e.1 = (lat, lon)))
              (cache_data c0 lat lon (fresh_snapshot env1 t0 lat lon c)))
            lat lon (fresh_snapshot env3 t2 lat lon c)
          fetched := true } := by
    rw [fetch_location_data, if_neg (not_not_intro hrange), hg2, hc]
  exact ⟨_, h1, rfl, rfl, h2, _, h3, rfl, rfl⟩

/-- Witness for `cache_window`: Scenario C's environment at (20, 75), empty
initial cache, TTL 7 days, calls at times 0, 3 and 7. -/
theorem cache_window_witness :
    ∃ r1 : FetchResult,
      fetch_location_data scenario_c_env [] 7 0 20 75 = Except.ok r1
      ∧ r1.fetched = true ∧ r1.data.timestamp = some 0
      ∧ fetch_location_data scenario_c_env r1.cache 7 3 20 75 =
          Except.ok { data := r1.data, cache := r1.cache, fetched := false }
      ∧ ∃ r2 : FetchResult,
          fetch_location_data scenario_c_env r1.cache 7 7 20 75 = Except.ok r2
          ∧ r2.fetched = true ∧ r2.data.timestamp = some 7 :=
  cache_window scenario_c_env scenario_c_env scenario_c_env [] 7 0 3 7 20 75
    (by norm_num) rfl ⟨{ latitude := 20, longitude := 75 }, mk_coordinates_20_75⟩
    (by norm_num) (by norm_num) (by norm_num)

/-- C10: a latitude v with 0 < |v| < 0.0001 passes the pipeline's range check
but `Coordinates` construction rejects it, so `fetch_location_data` raises on
a cache miss; every other in-range field value is accepted and rounded to
6 decimal places. -/
theorem tiny_coordinate_rejected (lat lon : ℚ) (env : FetchEnv) (cache : Cache)
    (ttl now : ℚ)
    (hlat : -90 ≤ lat ∧ lat ≤ 90) (hlon : -180 ≤ lon ∧ lon ≤ 180)
    (hsmall : 0 < |lat| ∧ |lat| < 0.0001)
    (hmiss : (get_cached_data cache ttl now lat lon).1 = none) :
    (∃ e, fetch_location_data env cache ttl now lat lon = Except.error e)
    ∧ (∀ lo hi v : ℚ, lo ≤ v → v ≤ hi → ¬ (0 < |v| ∧ |v| < 0.0001) →
        validate_coordinate_field lo hi v = Except.ok (round6 v)) := by
  constructor
  · have hval : validate_coordinate_field (-90) 90 lat =
        Except.error "Coordinates must have at least 4 decimal places for accuracy" := by
      rw [validate_coordinate_field,
        if_neg (by rintro (h | h) <;> [linarith [hlat.1]; linarith [hlat.2]]),
        if_pos hsmall]
    refine ⟨"Coordinates must have at least 4 decimal places for accuracy", ?_⟩
    rw [fetch_location_data,
      if_neg (not_not_intro ⟨hlat.1, hlat.2, hlon.1, hlon.2⟩),
      get_cached_pair hmiss, mk_coordinates, hval]
  · intro lo hi v h1 h2 h3
    rw [validate_coordinate_field,
      if_neg (by rintro (h | h) <;> linarith), if_neg h3]

/-- Witness for `tiny_coordinate_rejected` at latitude 0.00005 on an empty
cache. -/
theorem tiny_coordinate_witness :
    (∃ e, fetch_location_data scenario_c_env [] 7 0 0.00005 73 = Except.error e)
    ∧ (∀ lo hi v : ℚ, lo ≤ v → v ≤ hi → ¬ (0 < |v| ∧ |v| < 0.0001) →
        validate_coordinate_field lo hi v = Except.ok (round6 v)) :=
  tiny_coordinate_rejected 0.00005 73 scenario_c_env [] 7 0 (by norm_num)
    (by norm_num)
    (by rw [abs_of_pos (show (0 : ℚ) < 0.00005 by norm_num)]; norm_num) rfl

end AgriSpec
